import Mathlib

/-!
Verification development for the Camel Drop incremental resource engine
(`script2d` incremental loop system).

Shallow embedding conventions:
* JavaScript numbers are modelled as rationals (`ℚ`); every `ℚ` is a finite
  number, so the model corresponds to the finite-number states of the engine.
* `Math.floor` is `Int.floor`, `Math.min` is `min`.
* `Math.random()` results are modelled by an explicit stream `rolls : ℕ → ℚ`
  of values assumed to lie in `[0, 1)` where a claim needs that bound;
  resolvers consume the stream left to right, matching the call order in the
  source (including the `&&` short-circuit in the bandit raid).
* The persisted JSON snapshot is a record of `Option ℚ` fields: `none` models
  a missing or non-finite (`!Number.isFinite`) stored value, `some q` a finite
  stored number.
* Status messages are modelled by counting the `updateStatusMessage` calls a
  resolver makes (the notifier's 4-second duplicate throttling is display-side
  and out of scope).
-/

namespace CamelGame

/-- The live mutable state of the incremental engine: the resource ledger
(eight quantities) and the four cycle timers, exactly the twelve variables
persisted by `saveGameState`. -/
structure GameState where
  counter : ℚ
  goldAmount : ℚ
  grassAmount : ℚ
  caravanCount : ℚ
  farmCount : ℚ
  grasslandCount : ℚ
  guardCampCount : ℚ
  nomadTokens : ℚ
  farmProductionTimer : ℚ
  grassConsumptionTimer : ℚ
  caravanGoldTimer : ℚ
  banditTimer : ℚ
  deriving DecidableEq

/-- Source `gainCamels(amount)`: non-positive amounts are ignored, otherwise the
camel counter increases (visual spawning is presentation-side). -/
def gainCamels (amount : ℚ) (s : GameState) : GameState :=
  if amount ≤ 0 then s else { s with counter := s.counter + amount }

/-- Source `spendCamels(amount)`: rejects non-positive or unaffordable amounts,
otherwise deducts from the camel counter and reports success. -/
def spendCamels (amount : ℚ) (s : GameState) : GameState × Bool :=
  if amount ≤ 0 ∨ s.counter < amount then (s, false)
  else ({ s with counter := s.counter - amount }, true)

/-- Source `gainGold(amount)`: non-positive amounts are ignored, otherwise gold
increases. -/
def gainGold (amount : ℚ) (s : GameState) : GameState :=
  if amount ≤ 0 then s else { s with goldAmount := s.goldAmount + amount }

/-- Source `spendGold(cost)`: rejects non-positive or unaffordable costs, otherwise
deducts the cost and reports success. -/
def spendGold (cost : ℚ) (s : GameState) : GameState × Bool :=
  if cost ≤ 0 ∨ s.goldAmount < cost then (s, false)
  else ({ s with goldAmount := s.goldAmount - cost }, true)

/-- Source `applyGrasslandGrowth(deltaSeconds)`: grasslands add
`floor(grasslandCount * delta)` grass when positive. -/
def applyGrasslandGrowth (delta : ℚ) (s : GameState) : GameState × Bool :=
  if s.grasslandCount = 0 ∨ delta ≤ 0 then (s, false)
  else
    let grassGained : ℤ := ⌊s.grasslandCount * delta⌋
    if grassGained ≤ 0 then (s, false)
    else ({ s with grassAmount := s.grassAmount + grassGained }, true)

/-- Source `processFarmProduction(deltaSeconds)`: accumulate the 2-second cycle
timer; convert `min(cycles * farmCount, grassAmount)` grass into camels when
possible; in the grass-starved branches the timer is clamped with
`Math.min(timer, 2)`. -/
def processFarmProduction (delta : ℚ) (s : GameState) : GameState × Bool :=
  let t := s.farmProductionTimer + delta
  if s.farmCount = 0 ∨ t < 2 then ({ s with farmProductionTimer := t }, false)
  else
    let cycles : ℤ := ⌊t / 2⌋
    if cycles = 0 then ({ s with farmProductionTimer := t }, false)
    else
      let potentialCamels : ℚ := (cycles : ℚ) * s.farmCount
      if s.grassAmount ≤ 0 then
        ({ s with farmProductionTimer := min t 2 }, false)
      else
        let camelsProduced := min potentialCamels s.grassAmount
        if camelsProduced ≤ 0 then
          ({ s with farmProductionTimer := min t 2 }, false)
        else
          (gainCamels camelsProduced
            { s with grassAmount := s.grassAmount - camelsProduced,
                     farmProductionTimer := t - (cycles : ℚ) * 2 }, true)

/-- Source `processGrassConsumption(deltaSeconds)`: every 10-second cycle the herd
eats `min(counter * cycles, grassAmount)` grass; reports changed iff grass
was actually consumed. -/
def processGrassConsumption (delta : ℚ) (s : GameState) : GameState × Bool :=
  let t := s.grassConsumptionTimer + delta
  if t < 10 ∨ s.counter ≤ 0 then ({ s with grassConsumptionTimer := t }, false)
  else
    let cycles : ℤ := ⌊t / 10⌋
    if cycles = 0 then ({ s with grassConsumptionTimer := t }, false)
    else
      let grassNeeded : ℚ := s.counter * (cycles : ℚ)
      let grassUsed := min grassNeeded s.grassAmount
      ({ s with grassAmount := s.grassAmount - grassUsed,
                grassConsumptionTimer := t - (cycles : ℚ) * 10 },
       decide (0 < grassUsed))

/-- One gold roll's base value: `Math.floor(Math.random() * 8) + 14`. -/
def caravanBaseGold (r : ℚ) : ℤ := ⌊r * 8⌋ + 14

/-- One caravan trial's payout:
`Math.floor(baseGold * (1 + nomadTokens * 0.01))`. -/
def caravanRollGold (tokens r : ℚ) : ℤ :=
  ⌊(caravanBaseGold r : ℚ) * (1 + tokens * 0.01)⌋

/-- Total payout of `n` consecutive trials drawn from the roll stream. -/
def caravanTotalGold (tokens : ℚ) (rolls : ℕ → ℚ) (n : ℕ) : ℤ :=
  (Finset.range n).sum fun i => caravanRollGold tokens (rolls i)

/-- Iteration count of `for (let i = 0; i < bound; i++)` for a numeric
`bound`. -/
def jsLoopCount (bound : ℚ) : ℕ := (Int.toNat ⌈bound⌉)

/-- Source `processCaravanGold(deltaSeconds)`: every 60-second cycle each caravan
rolls gold; the timer is decremented by the processed cycles before the
zero-total early return. Also returns how many random rolls were consumed. -/
def processCaravanGoldFull (delta : ℚ) (rolls : ℕ → ℚ) (s : GameState) :
    GameState × Bool × ℕ :=
  let t := s.caravanGoldTimer + delta
  if s.caravanCount = 0 ∨ t < 60 then ({ s with caravanGoldTimer := t }, false, 0)
  else
    let cycles : ℤ := ⌊t / 60⌋
    if cycles = 0 then ({ s with caravanGoldTimer := t }, false, 0)
    else
      let n := jsLoopCount (s.caravanCount * (cycles : ℚ))
      let totalGold := caravanTotalGold s.nomadTokens rolls n
      let s1 := { s with caravanGoldTimer := t - (cycles : ℚ) * 60 }
      if totalGold ≤ 0 then (s1, false, n)
      else (gainGold (totalGold : ℚ) s1, true, n)

/-- Source `processCaravanGold` restricted to the state and changed flag. -/
def processCaravanGold (delta : ℚ) (rolls : ℕ → ℚ) (s : GameState) :
    GameState × Bool :=
  let r := processCaravanGoldFull delta rolls s
  (r.1, r.2.1)

/-- Outcome of one iteration of the bandit-raid loop body: the resulting
state, whether resources changed in this cycle, how many status messages the
cycle emitted, and the next unread index of the roll stream. -/
structure RaidStep where
  state : GameState
  changed : Bool
  msgs : ℕ
  next : ℕ
  deriving DecidableEq

/-- One iteration of the loop body of `processBanditRaid`: roll an attack
chance in `[0.05, 0.10)`; a peaceful cycle (`Math.random() > attackChance`)
emits nothing; an attacked cycle may lose one caravan (the loss roll is only
drawn when `caravanCount > 0`, matching the `&&` short circuit), steals
`min(goldAmount, floor(goldAmount * (0.1 + Math.random() * 0.1)))` gold, and
emits exactly one status message. -/
def banditCycle (rolls : ℕ → ℚ) (idx : ℕ) (s : GameState) : RaidStep :=
  let attackChance := rolls idx * 0.05 + 0.05
  if attackChance < rolls (idx + 1) then ⟨s, false, 0, idx + 2⟩
  else
    let lossChance : ℚ := if 0 < s.guardCampCount then 0.5 else 1
    let afterCaravan : Bool × GameState × ℕ :=
      if 0 < s.caravanCount then
        if rolls (idx + 2) < lossChance then
          (true, { s with caravanCount := s.caravanCount - 1 }, idx + 3)
        else (false, s, idx + 3)
      else (false, s, idx + 2)
    let caravanLost := afterCaravan.1
    let s1 := afterCaravan.2.1
    let idx2 := afterCaravan.2.2
    let goldStolen : ℚ :=
      min s1.goldAmount (⌊s1.goldAmount * (0.1 + rolls idx2 * 0.1)⌋ : ℤ)
    let s2 :=
      if 0 < goldStolen then { s1 with goldAmount := s1.goldAmount - goldStolen }
      else s1
    ⟨s2, caravanLost || decide (0 < goldStolen), 1, idx2 + 1⟩

/-- The bandit-raid loop over a number of whole cycles, threading the state
and the roll stream index, aggregating the changed flag with `||` and summing
emitted messages. -/
def banditCycles (rolls : ℕ → ℚ) : ℕ → ℕ → GameState → RaidStep
  | 0, idx, s => ⟨s, false, 0, idx⟩
  | n + 1, idx, s =>
    let r := banditCycle rolls idx s
    let rest := banditCycles rolls n r.next r.state
    ⟨rest.state, r.changed || rest.changed, r.msgs + rest.msgs, rest.next⟩

/-- Source `processBanditRaid(deltaSeconds)`: accumulate the 60-second timer; when a
whole cycle is pending, decrement the timer by `cycles * 60` up front, then
run the per-cycle raid loop. Returns the full `RaidStep` outcome. -/
def processBanditRaidFull (delta : ℚ) (rolls : ℕ → ℚ) (s : GameState) :
    RaidStep :=
  let t := s.banditTimer + delta
  if t < 60 then ⟨{ s with banditTimer := t }, false, 0, 0⟩
  else
    let cycles : ℤ := ⌊t / 60⌋
    banditCycles rolls (Int.toNat cycles) 0
      { s with banditTimer := t - (cycles : ℚ) * 60 }

/-- Source `processBanditRaid` restricted to the state and changed flag. -/
def processBanditRaid (delta : ℚ) (rolls : ℕ → ℚ) (s : GameState) :
    GameState × Bool :=
  let r := processBanditRaidFull delta rolls s
  (r.state, r.changed)

/-- Source `runResourceTick(deltaSeconds)`: run the five resolvers in their fixed
order. The caravan payout and the bandit raid share one stream of
`Math.random()` values; the raid reads it after the rolls the payout
consumed. -/
def runResourceTick (delta : ℚ) (rolls : ℕ → ℚ) (s : GameState) :
    GameState × Bool :=
  let r1 := applyGrasslandGrowth delta s
  let r2 := processFarmProduction delta r1.1
  let r3 := processGrassConsumption delta r2.1
  let r4 := processCaravanGoldFull delta rolls r3.1
  let used := r4.2.2
  let r5 := processBanditRaid delta (fun i => rolls (used + i)) r4.1
  (r5.1, r1.2 || r2.2 || r3.2 || r4.2.1 || r5.2)

/-- Source `handleFarmPurchase`: spend 25 gold; on success add one farm, on failure
only a status message is shown. -/
def handleFarmPurchase (s : GameState) : GameState :=
  let r := spendGold 25 s
  if r.2 then { r.1 with farmCount := r.1.farmCount + 1 } else r.1

/-- Source `handleGrasslandPurchase`: spend 50 gold; on success add one grassland. -/
def handleGrasslandPurchase (s : GameState) : GameState :=
  let r := spendGold 50 s
  if r.2 then { r.1 with grasslandCount := r.1.grasslandCount + 1 } else r.1

/-- Source `handleGuardPurchase`: spend 100 gold; on success add one guard camp. -/
def handleGuardPurchase (s : GameState) : GameState :=
  let r := spendGold 100 s
  if r.2 then { r.1 with guardCampCount := r.1.guardCampCount + 1 } else r.1

/-- Source `handleCaravanClick`: requires 100 camels; spends them and adds one
caravan. -/
def handleCaravanClick (s : GameState) : GameState :=
  if s.counter < 100 then s
  else
    let r := spendCamels 100 s
    if r.2 then { r.1 with caravanCount := r.1.caravanCount + 1 } else r.1

/-- Source `spawnCamel` via the spawn button: one camel is gained (the visual entity
is presentation-side). -/
def spawnCamel (s : GameState) : GameState := gainCamels 1 s

/-- The prestige unlock condition maintained by `updateNomadButtonState`:
1000 camels or 100 caravans. The migration button's `disabled` class tracks
exactly this predicate (re-evaluated every tick). -/
def prestigeUnlocked (s : GameState) : Bool :=
  decide (1000 ≤ s.counter) || decide (100 ≤ s.caravanCount)

/-- Tokens earned by a migration:
`Math.max(1, Math.floor(counter / 1000) + Math.floor(caravanCount / 100))`. -/
def nomadEarnedTokens (s : GameState) : ℤ :=
  max 1 (⌊s.counter / 1000⌋ + ⌊s.caravanCount / 100⌋)

/-- Source `resetResourcesForNomad`: zero every loop resource and all four timers,
keeping `nomadTokens`. -/
def resetResourcesForNomad (s : GameState) : GameState :=
  { s with counter := 0, goldAmount := 0, grassAmount := 0, farmCount := 0,
           grasslandCount := 0, guardCampCount := 0, caravanCount := 0,
           caravanGoldTimer := 0, farmProductionTimer := 0,
           grassConsumptionTimer := 0, banditTimer := 0 }

/-- Source `handleNomadMigration`: when the button is enabled (prestige unlocked),
add the earned tokens and reset all other resources; otherwise no-op. -/
def handleNomadMigration (s : GameState) : GameState :=
  if prestigeUnlocked s then
    resetResourcesForNomad { s with nomadTokens := s.nomadTokens + (nomadEarnedTokens s : ℚ) }
  else s

/-- The persisted JSON snapshot: each field is `some q` when the stored value
is a finite number `q` and `none` when it is missing or fails
`Number.isFinite`. -/
structure Snapshot where
  counter : Option ℚ
  goldAmount : Option ℚ
  caravanCount : Option ℚ
  farmCount : Option ℚ
  grassAmount : Option ℚ
  grasslandCount : Option ℚ
  guardCampCount : Option ℚ
  nomadTokens : Option ℚ
  caravanGoldTimer : Option ℚ
  farmProductionTimer : Option ℚ
  grassConsumptionTimer : Option ℚ
  banditTimer : Option ℚ
  deriving DecidableEq

/-- Source `saveGameState`: serialize the twelve live variables into the snapshot
(every in-memory rational is a finite number, so every field is stored). -/
def saveGameState (s : GameState) : Snapshot :=
  ⟨some s.counter, some s.goldAmount, some s.caravanCount, some s.farmCount,
   some s.grassAmount, some s.grasslandCount, some s.guardCampCount,
   some s.nomadTokens, some s.caravanGoldTimer, some s.farmProductionTimer,
   some s.grassConsumptionTimer, some s.banditTimer⟩

/-- Source `loadGameState`: with no stored snapshot, keep the in-memory state. With
a snapshot, adopt each finite stored field; a missing or non-finite ledger
field keeps the current in-memory value, while a missing or non-finite timer
field falls back to the literal `0`. -/
def loadGameState (stored : Option Snapshot) (s : GameState) : GameState :=
  match stored with
  | none => s
  | some d =>
    { counter := d.counter.getD s.counter,
      goldAmount := d.goldAmount.getD s.goldAmount,
      grassAmount := d.grassAmount.getD s.grassAmount,
      caravanCount := d.caravanCount.getD s.caravanCount,
      farmCount := d.farmCount.getD s.farmCount,
      grasslandCount := d.grasslandCount.getD s.grasslandCount,
      guardCampCount := d.guardCampCount.getD s.guardCampCount,
      nomadTokens := d.nomadTokens.getD s.nomadTokens,
      caravanGoldTimer := d.caravanGoldTimer.getD 0,
      farmProductionTimer := d.farmProductionTimer.getD 0,
      grassConsumptionTimer := d.grassConsumptionTimer.getD 0,
      banditTimer := d.banditTimer.getD 0 }

/-- The operations that can touch the ledger during a session: scheduler
ticks (with their stream of random rolls), the four purchase buttons, the
spawn button, and the prestige migration. -/
inductive Op where
  | tick (delta : ℚ) (rolls : ℕ → ℚ)
  | buyFarm
  | buyGrassland
  | buyGuard
  | formCaravan
  | spawn
  | migrate

/-- Apply one operation to the state. -/
def applyOp : Op → GameState → GameState
  | .tick delta rolls, s => (runResourceTick delta rolls s).1
  | .buyFarm, s => handleFarmPurchase s
  | .buyGrassland, s => handleGrasslandPurchase s
  | .buyGuard, s => handleGuardPurchase s
  | .formCaravan, s => handleCaravanClick s
  | .spawn, s => spawnCamel s
  | .migrate, s => handleNomadMigration s

/-- Run a sequence of operations in order. -/
def runOps (ops : List Op) (s : GameState) : GameState :=
  ops.foldl (fun acc op => applyOp op acc) s

/-- The initial values of the twelve variables at script load: every counter,
resource and timer starts at `0`. -/
def initState : GameState := ⟨0, 0, 0, 0, 0, 0, 0, 0, 0, 0, 0, 0⟩

/-- A roll stream that always returns `0` (a legal `Math.random()` value). -/
def zeroRoll : ℕ → ℚ := fun _ => 0

/-- A roll stream that always returns `1/2` (a legal `Math.random()`
value). -/
def halfRoll : ℕ → ℚ := fun _ => 1 / 2

/-- State and stream position reached after `i` iterations of the
bandit-raid loop. -/
def banditAfter (rolls : ℕ → ℚ) : ℕ → ℕ → GameState → GameState × ℕ
  | 0, idx, s => (s, idx)
  | i + 1, idx, s =>
    let r := banditCycle rolls idx s
    banditAfter rolls i r.next r.state

/-- The `i`-th iteration of the bandit-raid loop rolled an attack
(`Math.random() ≤ attackChance`, the complement of the `continue` branch). -/
def banditAttackedAt (rolls : ℕ → ℚ) (idx : ℕ) (s : GameState) (i : ℕ) : Bool :=
  decide (rolls ((banditAfter rolls i idx s).2 + 1) ≤
    rolls (banditAfter rolls i idx s).2 * 0.05 + 0.05)

/-- The `i`-th iteration of the bandit-raid loop lost a caravan or lost gold
(stated observably: the count or the stash strictly decreased over that
iteration). -/
def banditLossAt (rolls : ℕ → ℚ) (idx : ℕ) (s : GameState) (i : ℕ) : Prop :=
  (banditCycle rolls (banditAfter rolls i idx s).2 (banditAfter rolls i idx s).1).state.caravanCount <
      (banditAfter rolls i idx s).1.caravanCount ∨
    (banditCycle rolls (banditAfter rolls i idx s).2 (banditAfter rolls i idx s).1).state.goldAmount <
      (banditAfter rolls i idx s).1.goldAmount

/-- The state the bandit-raid loop starts from once a whole cycle is pending:
the timer has already been decremented by the processed cycles. -/
def banditStart (delta : ℚ) (s : GameState) : GameState :=
  { s with banditTimer :=
      s.banditTimer + delta - (⌊(s.banditTimer + delta) / 60⌋ : ℚ) * 60 }

/-- Concrete state for refuting the blanket timer post-condition: no farms,
and a farm timer about to accrue past the 2-second cycle. -/
def preC1 : GameState := { initState with farmProductionTimer := 3 }

/-- Concrete state for refuting the unconditional farm-production equation:
three farms, no grass, one pending cycle. -/
def preC3 : GameState :=
  { initState with farmCount := 3, farmProductionTimer := 3 }

/-- Scenario B state: three farms, 100 grass, farm timer at 3 seconds. -/
def farmScenario : GameState :=
  { initState with farmCount := 3, grassAmount := 100, farmProductionTimer := 3 }

/-- Scenario D state: 40 gold. -/
def goldScenario : GameState := { initState with goldAmount := 40 }

/-- Scenario C state: 1000 camels, no caravans. -/
def prestigeScenario : GameState := { initState with counter := 1000 }

/-- One caravan with its payout timer about to complete a cycle. -/
def caravanScenario : GameState :=
  { initState with caravanCount := 1, caravanGoldTimer := 59 }

/-- One camel with the grazing timer about to complete a cycle. -/
def grazeScenario : GameState :=
  { initState with counter := 1, grassAmount := 5, grassConsumptionTimer := 9 }

/-- A state whose bandit timer is about to complete exactly one cycle. -/
def banditScenario : GameState := { initState with banditTimer := 59 }

/-- A stored snapshot in which every field is missing or non-finite. -/
def emptySnap : Snapshot :=
  ⟨none, none, none, none, none, none, none, none, none, none, none, none⟩

/-- A stored snapshot whose fields are all finite numbers, but with a
negative camel counter and a fractional grass amount. -/
def badSnap : Snapshot :=
  ⟨some (-5), some 0, some 0, some 0, some (5 / 2), some 0, some 0, some 0,
   some 0, some 0, some 0, some 0⟩

/-- In-memory state before hydration with a non-zero caravan payout timer. -/
def preC8 : GameState := { initState with caravanGoldTimer := 5, counter := 7 }

/-! ## Helper lemmas -/

lemma gainCamels_nomadTokens (a : ℚ) (s : GameState) :
    (gainCamels a s).nomadTokens = s.nomadTokens := by
  unfold gainCamels
  split <;> rfl

lemma gainGold_nomadTokens (a : ℚ) (s : GameState) :
    (gainGold a s).nomadTokens = s.nomadTokens := by
  unfold gainGold
  split <;> rfl

lemma spendGold_nomadTokens (c : ℚ) (s : GameState) :
    ((spendGold c s).1).nomadTokens = s.nomadTokens := by
  unfold spendGold
  split <;> rfl

lemma spendCamels_nomadTokens (a : ℚ) (s : GameState) :
    ((spendCamels a s).1).nomadTokens = s.nomadTokens := by
  unfold spendCamels
  split <;> rfl

lemma applyGrasslandGrowth_nomadTokens (d : ℚ) (s : GameState) :
    ((applyGrasslandGrowth d s).1).nomadTokens = s.nomadTokens := by
  simp only [applyGrasslandGrowth]
  repeat' split
  all_goals rfl

lemma processFarmProduction_nomadTokens (d : ℚ) (s : GameState) :
    ((processFarmProduction d s).1).nomadTokens = s.nomadTokens := by
  simp only [processFarmProduction, gainCamels]
  repeat' split
  all_goals rfl

lemma processGrassConsumption_nomadTokens (d : ℚ) (s : GameState) :
    ((processGrassConsumption d s).1).nomadTokens = s.nomadTokens := by
  simp only [processGrassConsumption]
  repeat' split
  all_goals rfl

lemma processCaravanGoldFull_nomadTokens (d : ℚ) (rolls : ℕ → ℚ) (s : GameState) :
    ((processCaravanGoldFull d rolls s).1).nomadTokens = s.nomadTokens := by
  simp only [processCaravanGoldFull, gainGold]
  repeat' split
  all_goals rfl

lemma banditCycle_nomadTokens (rolls : ℕ → ℚ) (idx : ℕ) (s : GameState) :
    (banditCycle rolls idx s).state.nomadTokens = s.nomadTokens := by
  simp only [banditCycle]
  repeat' split
  all_goals rfl

lemma banditCycles_nomadTokens (rolls : ℕ → ℚ) (n idx : ℕ) (s : GameState) :
    (banditCycles rolls n idx s).state.nomadTokens = s.nomadTokens := by
  induction n generalizing idx s with
  | zero => rfl
  | succ n ih =>
    simp only [banditCycles]
    rw [ih, banditCycle_nomadTokens]

lemma processBanditRaidFull_nomadTokens (d : ℚ) (rolls : ℕ → ℚ) (s : GameState) :
    (processBanditRaidFull d rolls s).state.nomadTokens = s.nomadTokens := by
  simp only [processBanditRaidFull]
  split
  · rfl
  · rw [banditCycles_nomadTokens]

lemma runResourceTick_nomadTokens (d : ℚ) (rolls : ℕ → ℚ) (s : GameState) :
    ((runResourceTick d rolls s).1).nomadTokens = s.nomadTokens := by
  unfold runResourceTick processBanditRaid
  dsimp only
  rw [processBanditRaidFull_nomadTokens, processCaravanGoldFull_nomadTokens,
    processGrassConsumption_nomadTokens, processFarmProduction_nomadTokens,
    applyGrasslandGrowth_nomadTokens]

lemma handleFarmPurchase_nomadTokens (s : GameState) :
    (handleFarmPurchase s).nomadTokens = s.nomadTokens := by
  simp only [handleFarmPurchase, spendGold]
  repeat' split
  all_goals rfl

lemma handleGrasslandPurchase_nomadTokens (s : GameState) :
    (handleGrasslandPurchase s).nomadTokens = s.nomadTokens := by
  simp only [handleGrasslandPurchase, spendGold]
  repeat' split
  all_goals rfl

lemma handleGuardPurchase_nomadTokens (s : GameState) :
    (handleGuardPurchase s).nomadTokens = s.nomadTokens := by
  simp only [handleGuardPurchase, spendGold]
  repeat' split
  all_goals rfl

lemma handleCaravanClick_nomadTokens (s : GameState) :
    (handleCaravanClick s).nomadTokens = s.nomadTokens := by
  simp only [handleCaravanClick, spendCamels]
  repeat' split
  all_goals rfl

lemma one_le_nomadEarnedTokens (s : GameState) : 1 ≤ nomadEarnedTokens s :=
  le_max_left _ _

lemma sub_floor_mul_lt (t c : ℚ) (hc : 0 < c) : t - (⌊t / c⌋ : ℚ) * c < c := by
  have h := Int.lt_floor_add_one (t / c)
  rw [div_lt_iff₀ hc] at h
  linarith

lemma one_le_floor_of_le (t c : ℚ) (hc : 0 < c) (h : c ≤ t) :
    (1 : ℤ) ≤ ⌊t / c⌋ := by
  apply Int.le_floor.mpr
  rw [le_div_iff₀ hc]
  push_cast
  linarith

lemma gainCamels_counter (a : ℚ) (s : GameState) (h : 0 < a) :
    (gainCamels a s).counter = s.counter + a := by
  rw [gainCamels, if_neg (not_le.mpr h)]

lemma gainCamels_grassAmount (a : ℚ) (s : GameState) :
    (gainCamels a s).grassAmount = s.grassAmount := by
  rw [gainCamels]
  split <;> rfl

lemma gainCamels_farmProductionTimer (a : ℚ) (s : GameState) :
    (gainCamels a s).farmProductionTimer = s.farmProductionTimer := by
  rw [gainCamels]
  split <;> rfl

lemma gainGold_goldAmount (a : ℚ) (s : GameState) (h : 0 < a) :
    (gainGold a s).goldAmount = s.goldAmount + a := by
  rw [gainGold, if_neg (not_le.mpr h)]

lemma gainGold_caravanGoldTimer (a : ℚ) (s : GameState) :
    (gainGold a s).caravanGoldTimer = s.caravanGoldTimer := by
  rw [gainGold]
  split <;> rfl

lemma banditCycle_banditTimer (rolls : ℕ → ℚ) (idx : ℕ) (s : GameState) :
    (banditCycle rolls idx s).state.banditTimer = s.banditTimer := by
  simp only [banditCycle]
  repeat' split
  all_goals rfl

lemma banditCycles_banditTimer (rolls : ℕ → ℚ) (n idx : ℕ) (s : GameState) :
    (banditCycles rolls n idx s).state.banditTimer = s.banditTimer := by
  induction n generalizing idx s with
  | zero => rfl
  | succ n ih =>
    simp only [banditCycles]
    rw [ih, banditCycle_banditTimer]

/-- In the producing branch (farms present, grass positive, a whole cycle
pending) `processFarmProduction` converts
`min(cycles * farmCount, grassAmount)` grass into that many camels and
decrements the timer by `cycles * 2`. -/
lemma processFarmProduction_produces (delta : ℚ) (s : GameState)
    (hf : 0 < s.farmCount) (hg : 0 < s.grassAmount)
    (ht : 2 ≤ s.farmProductionTimer + delta) :
    processFarmProduction delta s =
      (gainCamels
        (min ((⌊(s.farmProductionTimer + delta) / 2⌋ : ℚ) * s.farmCount) s.grassAmount)
        { s with
          grassAmount := s.grassAmount -
            min ((⌊(s.farmProductionTimer + delta) / 2⌋ : ℚ) * s.farmCount) s.grassAmount,
          farmProductionTimer := s.farmProductionTimer + delta -
            (⌊(s.farmProductionTimer + delta) / 2⌋ : ℚ) * 2 }, true) := by
  have hcy : (1 : ℤ) ≤ ⌊(s.farmProductionTimer + delta) / 2⌋ :=
    one_le_floor_of_le _ _ (by norm_num) ht
  have hcyQ : (1 : ℚ) ≤ (⌊(s.farmProductionTimer + delta) / 2⌋ : ℚ) := by
    exact_mod_cast hcy
  have hmin :
      0 < min ((⌊(s.farmProductionTimer + delta) / 2⌋ : ℚ) * s.farmCount) s.grassAmount :=
    lt_min (mul_pos (by linarith) hf) hg
  simp only [processFarmProduction]
  rw [if_neg (not_or.mpr ⟨hf.ne', not_lt.mpr ht⟩),
    if_neg (by omega : ¬ ⌊(s.farmProductionTimer + delta) / 2⌋ = 0),
    if_neg (not_le.mpr hg), if_neg (not_le.mpr hmin)]

lemma processFarmProduction_starved (delta : ℚ) (s : GameState)
    (hf : 0 < s.farmCount) (hg : s.grassAmount ≤ 0)
    (ht : 2 ≤ s.farmProductionTimer + delta) :
    processFarmProduction delta s =
      ({ s with farmProductionTimer := min (s.farmProductionTimer + delta) 2 },
        false) := by
  have hcy : (1 : ℤ) ≤ ⌊(s.farmProductionTimer + delta) / 2⌋ :=
    one_le_floor_of_le _ _ (by norm_num) ht
  simp only [processFarmProduction]
  rw [if_neg (not_or.mpr ⟨hf.ne', not_lt.mpr ht⟩),
    if_neg (by omega : ¬ ⌊(s.farmProductionTimer + delta) / 2⌋ = 0),
    if_pos hg]

lemma banditCycle_msgs (rolls : ℕ → ℚ) (idx : ℕ) (s : GameState) :
    (banditCycle rolls idx s).msgs =
      if rolls (idx + 1) ≤ rolls idx * 0.05 + 0.05 then 1 else 0 := by
  simp only [banditCycle]
  split
  · rename_i h
    rw [if_neg (not_le.mpr h)]
  · rename_i h
    rw [if_pos (not_lt.mp h)]

lemma banditCycle_changed_iff (rolls : ℕ → ℚ) (idx : ℕ) (s : GameState) :
    (banditCycle rolls idx s).changed = true ↔
      ((banditCycle rolls idx s).state.caravanCount < s.caravanCount ∨
        (banditCycle rolls idx s).state.goldAmount < s.goldAmount) := by
  simp only [banditCycle]
  repeat' split
  all_goals simp_all [sub_lt_self]

lemma banditAttackedAt_zero (rolls : ℕ → ℚ) (idx : ℕ) (s : GameState) :
    banditAttackedAt rolls idx s 0 =
      decide (rolls (idx + 1) ≤ rolls idx * 0.05 + 0.05) := rfl

lemma banditAttackedAt_succ (rolls : ℕ → ℚ) (idx : ℕ) (s : GameState) (i : ℕ) :
    banditAttackedAt rolls idx s (i + 1) =
      banditAttackedAt rolls (banditCycle rolls idx s).next
        (banditCycle rolls idx s).state i := rfl

lemma banditCycles_msgs_eq (rolls : ℕ → ℚ) (n idx : ℕ) (s : GameState) :
    (banditCycles rolls n idx s).msgs =
      ((Finset.range n).filter
        (fun i => banditAttackedAt rolls idx s i = true)).card := by
  induction n generalizing idx s with
  | zero => simp [banditCycles]
  | succ n ih =>
    simp only [banditCycles]
    rw [ih, Finset.card_filter, Finset.card_filter, Finset.sum_range_succ']
    simp only [banditAttackedAt_succ]
    have h0 : (banditCycle rolls idx s).msgs =
        if banditAttackedAt rolls idx s 0 = true then 1 else 0 := by
      rw [banditCycle_msgs, banditAttackedAt_zero]
      by_cases h : rolls (idx + 1) ≤ rolls idx * 0.05 + 0.05
      · rw [if_pos h, if_pos (by simp [h])]
      · rw [if_neg h, if_neg (by simp [h])]
    rw [h0]
    omega

lemma banditCycles_changed_iff (rolls : ℕ → ℚ) (n idx : ℕ) (s : GameState) :
    (banditCycles rolls n idx s).changed = true ↔
      ∃ i, i < n ∧ banditLossAt rolls idx s i := by
  induction n generalizing idx s with
  | zero => simp [banditCycles]
  | succ n ih =>
    simp only [banditCycles]
    rw [Bool.or_eq_true, banditCycle_changed_iff, ih]
    constructor
    · rintro (h | ⟨i, hi, h⟩)
      · exact ⟨0, Nat.succ_pos n, h⟩
      · exact ⟨i + 1, by omega, h⟩
    · rintro ⟨i, hi, h⟩
      cases i with
      | zero => exact Or.inl h
      | succ i => exact Or.inr ⟨i, by omega, h⟩

lemma caravanBaseGold_mem (r : ℚ) (h0 : 0 ≤ r) (h1 : r < 1) :
    14 ≤ caravanBaseGold r ∧ caravanBaseGold r ≤ 21 := by
  unfold caravanBaseGold
  constructor
  · have h : (0 : ℤ) ≤ ⌊r * 8⌋ := Int.floor_nonneg.mpr (by positivity)
    omega
  · have h : ⌊r * 8⌋ < 8 := Int.floor_lt.mpr (by push_cast; linarith)
    omega

lemma caravanRollGold_ge (tokens r : ℚ) (htok : 0 ≤ tokens) (h0 : 0 ≤ r)
    (h1 : r < 1) : 14 ≤ caravanRollGold tokens r := by
  unfold caravanRollGold
  have hb : (14 : ℚ) ≤ (caravanBaseGold r : ℚ) := by
    exact_mod_cast (caravanBaseGold_mem r h0 h1).1
  have hm : (1 : ℚ) ≤ 1 + tokens * 0.01 := by nlinarith
  apply Int.le_floor.mpr
  push_cast
  nlinarith

lemma caravanTotalGold_ge (tokens : ℚ) (rolls : ℕ → ℚ) (n : ℕ)
    (htok : 0 ≤ tokens) (hr : ∀ i, 0 ≤ rolls i ∧ rolls i < 1) :
    (14 * n : ℤ) ≤ caravanTotalGold tokens rolls n := by
  unfold caravanTotalGold
  calc (14 * n : ℤ) = (Finset.range n).sum fun _ => (14 : ℤ) := by
        rw [Finset.sum_const, Finset.card_range, nsmul_eq_mul]
        ring
    _ ≤ _ := Finset.sum_le_sum fun i _ =>
        caravanRollGold_ge tokens (rolls i) htok (hr i).1 (hr i).2

lemma caravanBaseGold_surj (k : ℤ) (h1 : 14 ≤ k) (h2 : k ≤ 21) :
    ∃ r, 0 ≤ r ∧ r < 1 ∧ caravanBaseGold r = k := by
  have hk14 : (14 : ℚ) ≤ (k : ℚ) := by exact_mod_cast h1
  have hk21 : (k : ℚ) ≤ 21 := by exact_mod_cast h2
  refine ⟨((k : ℚ) - 14) / 8, div_nonneg (by linarith) (by norm_num), ?_, ?_⟩
  · rw [div_lt_one (by norm_num)]
    linarith
  · unfold caravanBaseGold
    have h8 : ((k : ℚ) - 14) / 8 * 8 = ((k - 14 : ℤ) : ℚ) := by
      push_cast
      ring
    rw [h8, Int.floor_intCast]
    omega

lemma handleNomadMigration_nomadTokens_le (s : GameState) :
    s.nomadTokens ≤ (handleNomadMigration s).nomadTokens := by
  unfold handleNomadMigration
  split
  · have h : (1 : ℚ) ≤ (nomadEarnedTokens s : ℚ) := by
      exact_mod_cast one_le_nomadEarnedTokens s
    show s.nomadTokens ≤ s.nomadTokens + (nomadEarnedTokens s : ℚ)
    linarith
  · exact le_refl _

lemma applyOp_nomadTokens_le (op : Op) (s : GameState) :
    s.nomadTokens ≤ (applyOp op s).nomadTokens := by
  cases op with
  | tick d rolls => exact (runResourceTick_nomadTokens d rolls s).ge
  | buyFarm => exact (handleFarmPurchase_nomadTokens s).ge
  | buyGrassland => exact (handleGrasslandPurchase_nomadTokens s).ge
  | buyGuard => exact (handleGuardPurchase_nomadTokens s).ge
  | formCaravan => exact (handleCaravanClick_nomadTokens s).ge
  | spawn => exact (gainCamels_nomadTokens 1 s).ge
  | migrate => exact handleNomadMigration_nomadTokens_le s

/-! ## Claim theorems -/

/-- Claim C5. Saving the twelve persisted fields and immediately loading the
snapshot back (with no mutation in between) restores every field to the value
that was saved: the round trip is the identity on states (every in-memory
rational is a finite number, so every field round-trips). -/
theorem save_load_roundtrip (s : GameState) :
    loadGameState (some (saveGameState s)) s = s := rfl

/-- Claim C10. Hydration validates finiteness only: a stored snapshot whose
fields are all finite numbers but contain `counter = -5` and
`grassAmount = 5/2` is adopted verbatim by `loadGameState`, so a restored
session can start with a negative camel count and a fractional (non-integer)
grass amount, violating the non-negative-integer ledger invariants. -/
theorem load_accepts_negative_and_fractional :
    (loadGameState (some badSnap) initState).counter = -5 ∧
      (loadGameState (some badSnap) initState).grassAmount = 5 / 2 ∧
      (loadGameState (some badSnap) initState).counter < 0 ∧
      (⌊(loadGameState (some badSnap) initState).grassAmount⌋ : ℚ) ≠
        (loadGameState (some badSnap) initState).grassAmount := by
  refine ⟨rfl, rfl, by norm_num [loadGameState, badSnap], ?_⟩
  show (⌊(5 / 2 : ℚ)⌋ : ℚ) ≠ 5 / 2
  norm_num

/-- Claim C8, counterexample. The four timer fields do not keep their pre-load
in-memory value on a missing/non-finite stored field: hydrating an all-`none`
snapshot over a state whose `caravanGoldTimer` is `5` resets that timer to
the literal `0`, while a ledger field (`counter`) does keep its pre-load
value. -/
theorem load_timer_fallback_not_preload :
    (loadGameState (some emptySnap) preC8).caravanGoldTimer ≠
        preC8.caravanGoldTimer ∧
      (loadGameState (some emptySnap) preC8).counter = preC8.counter := by
  constructor
  · show (0 : ℚ) ≠ 5
    norm_num
  · rfl

/-- Claim C8, amended. Hydration is per-field, never all-or-nothing: each of the
eight ledger fields independently adopts its stored value when finite and
otherwise keeps the pre-load in-memory value, while each of the four timer
fields adopts its stored value when finite and otherwise falls back to the
constant `0` (which coincides with the pre-load value at startup, the only
call site); with no stored snapshot the whole in-memory state is kept. -/
theorem load_per_field_fallback (d : Snapshot) (s : GameState) :
    (loadGameState (some d) s).counter = d.counter.getD s.counter ∧
      (loadGameState (some d) s).goldAmount = d.goldAmount.getD s.goldAmount ∧
      (loadGameState (some d) s).caravanCount = d.caravanCount.getD s.caravanCount ∧
      (loadGameState (some d) s).farmCount = d.farmCount.getD s.farmCount ∧
      (loadGameState (some d) s).grassAmount = d.grassAmount.getD s.grassAmount ∧
      (loadGameState (some d) s).grasslandCount = d.grasslandCount.getD s.grasslandCount ∧
      (loadGameState (some d) s).guardCampCount = d.guardCampCount.getD s.guardCampCount ∧
      (loadGameState (some d) s).nomadTokens = d.nomadTokens.getD s.nomadTokens ∧
      (loadGameState (some d) s).caravanGoldTimer = d.caravanGoldTimer.getD 0 ∧
      (loadGameState (some d) s).farmProductionTimer = d.farmProductionTimer.getD 0 ∧
      (loadGameState (some d) s).grassConsumptionTimer = d.grassConsumptionTimer.getD 0 ∧
      (loadGameState (some d) s).banditTimer = d.banditTimer.getD 0 ∧
      loadGameState none s = s :=
  ⟨rfl, rfl, rfl, rfl, rfl, rfl, rfl, rfl, rfl, rfl, rfl, rfl, rfl⟩

/-- Claim C7. `spendGold` and `spendCamels` reject non-positive or unaffordable
requests with no mutation, and otherwise deduct exactly the requested amount
and report success; a farm purchase at 40 gold succeeds leaving 15 gold and
one more farm, and a second attempt at 15 gold is rejected leaving the state
unchanged. -/
theorem spend_operations_spec (s : GameState) (cost amount : ℚ) :
    (cost ≤ 0 ∨ s.goldAmount < cost → spendGold cost s = (s, false)) ∧
      (0 < cost → cost ≤ s.goldAmount →
        spendGold cost s = ({ s with goldAmount := s.goldAmount - cost }, true)) ∧
      (amount ≤ 0 ∨ s.counter < amount → spendCamels amount s = (s, false)) ∧
      (0 < amount → amount ≤ s.counter →
        spendCamels amount s = ({ s with counter := s.counter - amount }, true)) ∧
      (s.goldAmount = 40 →
        (handleFarmPurchase s).goldAmount = 15 ∧
          (handleFarmPurchase s).farmCount = s.farmCount + 1) ∧
      (s.goldAmount = 15 → handleFarmPurchase s = s) := by
  refine ⟨?_, ?_, ?_, ?_, ?_, ?_⟩
  · intro h
    simp only [spendGold, if_pos h]
  · intro h1 h2
    rw [spendGold, if_neg]
    push_neg
    exact ⟨h1, h2⟩
  · intro h
    simp only [spendCamels, if_pos h]
  · intro h1 h2
    rw [spendCamels, if_neg]
    push_neg
    exact ⟨h1, h2⟩
  · intro h
    have hs : spendGold 25 s = ({ s with goldAmount := s.goldAmount - 25 }, true) := by
      rw [spendGold, if_neg]
      push_neg
      refine ⟨by norm_num, ?_⟩
      rw [h]
      norm_num
    unfold handleFarmPurchase
    rw [hs]
    simp [h]
    norm_num
  · intro h
    have hs : spendGold 25 s = (s, false) := by
      rw [spendGold, if_pos]
      right
      rw [h]
      norm_num
    unfold handleFarmPurchase
    rw [hs]
    rfl

/-- Claim C7, witness. At 40 gold a farm purchase succeeds leaving 15 gold and
one more farm, and at 15 gold it is rejected with no change. -/
theorem spend_operations_witness :
    goldScenario.goldAmount = 40 ∧
      (handleFarmPurchase goldScenario).goldAmount = 15 ∧
      (handleFarmPurchase goldScenario).farmCount = goldScenario.farmCount + 1 ∧
      ((handleFarmPurchase goldScenario).goldAmount = 15 →
        handleFarmPurchase (handleFarmPurchase goldScenario) =
          handleFarmPurchase goldScenario) := by
  have h1 := (spend_operations_spec goldScenario 25 100).2.2.2.2.1 rfl
  have h2 := (spend_operations_spec (handleFarmPurchase goldScenario) 25 100).2.2.2.2.2
  exact ⟨rfl, h1.1, h1.2, h2⟩

/-- Claim C2. While prestige is unlocked (at least 1000 camels or 100
caravans), a migration request adds
`max(1, floor(counter/1000) + floor(caravanCount/100))` tokens to
`nomadTokens` and zeroes every other persisted field and all four timers; in
particular with exactly 1000 camels and no caravans it earns exactly one
token. -/
theorem nomad_migration_spec (s : GameState)
    (h : 1000 ≤ s.counter ∨ 100 ≤ s.caravanCount) :
    handleNomadMigration s =
        { counter := 0, goldAmount := 0, grassAmount := 0, caravanCount := 0,
          farmCount := 0, grasslandCount := 0, guardCampCount := 0,
          nomadTokens := s.nomadTokens +
            ((max 1 (⌊s.counter / 1000⌋ + ⌊s.caravanCount / 100⌋) : ℤ) : ℚ),
          farmProductionTimer := 0, grassConsumptionTimer := 0,
          caravanGoldTimer := 0, banditTimer := 0 } ∧
      (s.counter = 1000 → s.caravanCount = 0 →
        (handleNomadMigration s).nomadTokens = s.nomadTokens + 1) := by
  have hu : prestigeUnlocked s = true := by
    unfold prestigeUnlocked
    rcases h with h | h
    · simp [decide_eq_true_eq, h]
    · simp [decide_eq_true_eq, h]
  constructor
  · unfold handleNomadMigration
    rw [hu]
    simp only [if_true]
    rfl
  · intro hc hv
    unfold handleNomadMigration
    rw [hu]
    simp only [if_true]
    show s.nomadTokens + (nomadEarnedTokens s : ℚ) = s.nomadTokens + 1
    unfold nomadEarnedTokens
    rw [hc, hv]
    norm_num

/-- Claim C2, witness. With exactly 1000 camels and no caravans, migration earns
exactly one token and zeroes the camel counter. -/
theorem nomad_migration_witness :
    (1000 ≤ prestigeScenario.counter ∨ 100 ≤ prestigeScenario.caravanCount) ∧
      (handleNomadMigration prestigeScenario).nomadTokens =
        prestigeScenario.nomadTokens + 1 ∧
      (handleNomadMigration prestigeScenario).counter = 0 := by
  have h := nomad_migration_spec prestigeScenario (Or.inl (by norm_num [prestigeScenario, initState]))
  refine ⟨Or.inl (by norm_num [prestigeScenario, initState]), h.2 rfl rfl, ?_⟩
  rw [h.1]

/-- Claim C1, counterexample. The blanket timer post-condition fails: with no
farms and a farm timer reaching 4 seconds, `processFarmProduction` returns
with its timer at `4`, not strictly below the 2-second cycle length (the
`farmCount == 0` early return precedes the `Math.min(timer, 2)` cap). -/
theorem timer_postconditions_cex :
    preC1.farmCount = 0 ∧
      (processFarmProduction 1 preC1).1.farmProductionTimer = 4 ∧
      ¬(processFarmProduction 1 preC1).1.farmProductionTimer < 2 := by
  refine ⟨rfl, ?_, ?_⟩
  · norm_num [processFarmProduction, preC1, initState]
  · norm_num [processFarmProduction, preC1, initState]

/-- Claim C1, amended. The timer post-conditions that do hold: the bandit timer
is below 60 after every resolution; the farm timer is below 2 after a
producing resolution and exactly 2 (the inclusive cap) in the grass-starved
no-op branch; the grass timer is below 10 after a cycle resolves with a herd
present; the caravan timer is below 60 after a cycle resolves with caravans
present. In the remaining no-op branches (no farms, no herd, no caravans)
the timers accumulate without bound. -/
theorem timer_postconditions (delta : ℚ) (rolls : ℕ → ℚ) (s : GameState) :
    (processBanditRaid delta rolls s).1.banditTimer < 60 ∧
      (0 < s.farmCount → 0 < s.grassAmount → 2 ≤ s.farmProductionTimer + delta →
        (processFarmProduction delta s).1.farmProductionTimer < 2) ∧
      (0 < s.farmCount → s.grassAmount ≤ 0 → 2 ≤ s.farmProductionTimer + delta →
        (processFarmProduction delta s).1.farmProductionTimer = 2) ∧
      (0 < s.counter → 10 ≤ s.grassConsumptionTimer + delta →
        (processGrassConsumption delta s).1.grassConsumptionTimer < 10) ∧
      (¬s.caravanCount = 0 → 60 ≤ s.caravanGoldTimer + delta →
        (processCaravanGold delta rolls s).1.caravanGoldTimer < 60) := by
  refine ⟨?_, ?_, ?_, ?_, ?_⟩
  · unfold processBanditRaid
    dsimp only
    simp only [processBanditRaidFull]
    split
    · rename_i h
      exact h
    · rw [banditCycles_banditTimer]
      exact sub_floor_mul_lt _ _ (by norm_num)
  · intro hf hg ht
    rw [processFarmProduction_produces delta s hf hg ht]
    show (gainCamels _ _).farmProductionTimer < 2
    rw [gainCamels_farmProductionTimer]
    exact sub_floor_mul_lt _ _ (by norm_num)
  · intro hf hg ht
    rw [processFarmProduction_starved delta s hf hg ht]
    exact min_eq_right ht
  · intro hc ht
    simp only [processGrassConsumption]
    rw [if_neg (not_or.mpr ⟨not_lt.mpr ht, not_le.mpr hc⟩)]
    have hcy : (1 : ℤ) ≤ ⌊(s.grassConsumptionTimer + delta) / 10⌋ :=
      one_le_floor_of_le _ _ (by norm_num) ht
    rw [if_neg (by omega : ¬⌊(s.grassConsumptionTimer + delta) / 10⌋ = 0)]
    exact sub_floor_mul_lt _ _ (by norm_num)
  · intro hcc ht
    unfold processCaravanGold
    dsimp only
    simp only [processCaravanGoldFull]
    rw [if_neg (not_or.mpr ⟨hcc, not_lt.mpr ht⟩)]
    have hcy : (1 : ℤ) ≤ ⌊(s.caravanGoldTimer + delta) / 60⌋ :=
      one_le_floor_of_le _ _ (by norm_num) ht
    rw [if_neg (by omega : ¬⌊(s.caravanGoldTimer + delta) / 60⌋ = 0)]
    split
    · exact sub_floor_mul_lt _ _ (by norm_num)
    · rw [gainGold_caravanGoldTimer]
      exact sub_floor_mul_lt _ _ (by norm_num)

/-- Claim C1, witness. The amended post-conditions at concrete states: a bandit
raid completing one cycle, a producing farm tick, a grass-starved farm tick
(timer exactly 2), a grazing tick, and a caravan payout tick. -/
theorem timer_postconditions_witness :
    (processBanditRaid 1 zeroRoll banditScenario).1.banditTimer < 60 ∧
      (processFarmProduction 1 farmScenario).1.farmProductionTimer < 2 ∧
      (processFarmProduction 1 preC3).1.farmProductionTimer = 2 ∧
      (processGrassConsumption 1 grazeScenario).1.grassConsumptionTimer < 10 ∧
      (processCaravanGold 1 zeroRoll caravanScenario).1.caravanGoldTimer < 60 := by
  refine ⟨(timer_postconditions 1 zeroRoll banditScenario).1, ?_, ?_, ?_, ?_⟩
  · exact (timer_postconditions 1 zeroRoll farmScenario).2.1
      (by show (0 : ℚ) < 3; norm_num) (by show (0 : ℚ) < 100; norm_num)
      (by show (2 : ℚ) ≤ 3 + 1; norm_num)
  · exact (timer_postconditions 1 zeroRoll preC3).2.2.1
      (by show (0 : ℚ) < 3; norm_num) (le_refl 0)
      (by show (2 : ℚ) ≤ 3 + 1; norm_num)
  · exact (timer_postconditions 1 zeroRoll grazeScenario).2.2.2.1
      (by show (0 : ℚ) < 1; norm_num) (by show (10 : ℚ) ≤ 9 + 1; norm_num)
  · exact (timer_postconditions 1 zeroRoll caravanScenario).2.2.2.2
      (by show ¬(1 : ℚ) = 0; norm_num) (by show (60 : ℚ) ≤ 59 + 1; norm_num)

/-- Claim C3, counterexample. With a whole cycle pending but no grass, farm
production does not decrement the timer by `cycles * 2`: at three farms, zero
grass and an accrued timer of 4 the timer is clamped to 2, not reduced to
`4 - 2*2 = 0`. -/
theorem farm_production_cex :
    (1 : ℤ) ≤ ⌊(preC3.farmProductionTimer + 1) / 2⌋ ∧
      (processFarmProduction 1 preC3).1.farmProductionTimer = 2 ∧
      (processFarmProduction 1 preC3).1.farmProductionTimer ≠
        preC3.farmProductionTimer + 1 -
          (⌊(preC3.farmProductionTimer + 1) / 2⌋ : ℚ) * 2 := by
  refine ⟨?_, ?_, ?_⟩
  · norm_num [preC3, initState]
  · norm_num [processFarmProduction, preC3, initState]
  · norm_num [processFarmProduction, preC3, initState]

/-- Claim C3, amended. With farms present, positive grass and at least one
whole 2-second cycle accumulated, farm production produces exactly
`min(cycles * farmCount, grassAmount)` camels, subtracts that same amount of
grass (never more grass than was available) and decrements the timer by
`cycles * 2`; with 3 farms, 100 grass and an accrued timer of 4 it produces
6 camels, leaves 94 grass and resets the timer to 0. -/
theorem farm_production_spec (delta : ℚ) (s : GameState)
    (hf : 0 < s.farmCount) (hg : 0 < s.grassAmount)
    (ht : 2 ≤ s.farmProductionTimer + delta) :
    (processFarmProduction delta s).1.counter =
        s.counter +
          min ((⌊(s.farmProductionTimer + delta) / 2⌋ : ℚ) * s.farmCount) s.grassAmount ∧
      (processFarmProduction delta s).1.grassAmount =
        s.grassAmount -
          min ((⌊(s.farmProductionTimer + delta) / 2⌋ : ℚ) * s.farmCount) s.grassAmount ∧
      min ((⌊(s.farmProductionTimer + delta) / 2⌋ : ℚ) * s.farmCount) s.grassAmount ≤
        s.grassAmount ∧
      (processFarmProduction delta s).1.farmProductionTimer =
        s.farmProductionTimer + delta - (⌊(s.farmProductionTimer + delta) / 2⌋ : ℚ) * 2 ∧
      (processFarmProduction delta s).2 = true ∧
      (s.farmCount = 3 → s.grassAmount = 100 → s.farmProductionTimer + delta = 4 →
        (processFarmProduction delta s).1.counter = s.counter + 6 ∧
          (processFarmProduction delta s).1.grassAmount = 94 ∧
          (processFarmProduction delta s).1.farmProductionTimer = 0) := by
  have hcyQ : (1 : ℚ) ≤ (⌊(s.farmProductionTimer + delta) / 2⌋ : ℚ) := by
    exact_mod_cast one_le_floor_of_le _ _ (by norm_num) ht
  have hmin :
      0 < min ((⌊(s.farmProductionTimer + delta) / 2⌋ : ℚ) * s.farmCount) s.grassAmount :=
    lt_min (mul_pos (by linarith) hf) hg
  have hkey := processFarmProduction_produces delta s hf hg ht
  have e1 : (processFarmProduction delta s).1.counter =
      s.counter +
        min ((⌊(s.farmProductionTimer + delta) / 2⌋ : ℚ) * s.farmCount) s.grassAmount := by
    rw [hkey]
    show (gainCamels _ _).counter = _
    rw [gainCamels_counter _ _ hmin]
  have e2 : (processFarmProduction delta s).1.grassAmount =
      s.grassAmount -
        min ((⌊(s.farmProductionTimer + delta) / 2⌋ : ℚ) * s.farmCount) s.grassAmount := by
    rw [hkey]
    show (gainCamels _ _).grassAmount = _
    rw [gainCamels_grassAmount]
  have e3 : (processFarmProduction delta s).1.farmProductionTimer =
      s.farmProductionTimer + delta - (⌊(s.farmProductionTimer + delta) / 2⌋ : ℚ) * 2 := by
    rw [hkey]
    show (gainCamels _ _).farmProductionTimer = _
    rw [gainCamels_farmProductionTimer]
  refine ⟨e1, e2, min_le_right _ _, e3, by rw [hkey], ?_⟩
  intro h3 h100 h4
  rw [h4] at e1 e2 e3
  rw [h3] at e1 e2
  rw [h100] at e1 e2
  norm_num at e1 e2 e3
  exact ⟨e1, e2, e3⟩

/-- Claim C3, witness. Scenario B: 3 farms, 100 grass, an accrued farm timer of
4 seconds ⇒ 6 camels produced, 94 grass left, timer reset to 0. -/
theorem farm_production_witness :
    (0 < farmScenario.farmCount ∧ 0 < farmScenario.grassAmount ∧
        2 ≤ farmScenario.farmProductionTimer + 1) ∧
      (processFarmProduction 1 farmScenario).1.counter = farmScenario.counter + 6 ∧
      (processFarmProduction 1 farmScenario).1.grassAmount = 94 ∧
      (processFarmProduction 1 farmScenario).1.farmProductionTimer = 0 := by
  have h := farm_production_spec 1 farmScenario (by show (0 : ℚ) < 3; norm_num)
    (by show (0 : ℚ) < 100; norm_num) (by show (2 : ℚ) ≤ 3 + 1; norm_num)
  exact ⟨⟨by show (0 : ℚ) < 3; norm_num, by show (0 : ℚ) < 100; norm_num,
    by show (2 : ℚ) ≤ 3 + 1; norm_num⟩,
    h.2.2.2.2.2 rfl rfl (by show (3 : ℚ) + 1 = 4; norm_num)⟩

/-- Claim C4. With caravans present and at least one whole 60-second cycle
accumulated, the payout performs exactly `caravanCount * cycles` rolls from
the random stream; each base roll lies in `[14, 21]` and every integer in
that range is attainable; each roll is scaled by `(1 + nomadTokens * 0.01)`
and floored (hence contributes at least 14 gold when `nomadTokens ≥ 0`); the
rolls are summed onto the gold stash; the timer is decremented by
`cycles * 60` in both branches, i.e. before the zero-total check; and the
zero-total early return is unreachable. -/
theorem caravan_gold_spec (delta : ℚ) (rolls : ℕ → ℚ) (s : GameState) (c : ℕ)
    (hc : s.caravanCount = (c : ℚ)) (hcpos : 0 < c) (htok : 0 ≤ s.nomadTokens)
    (hr : ∀ i, 0 ≤ rolls i ∧ rolls i < 1)
    (ht : 60 ≤ s.caravanGoldTimer + delta) :
    (processCaravanGoldFull delta rolls s).2.2 =
        c * Int.toNat ⌊(s.caravanGoldTimer + delta) / 60⌋ ∧
      (processCaravanGoldFull delta rolls s).1.caravanGoldTimer =
        s.caravanGoldTimer + delta -
          (⌊(s.caravanGoldTimer + delta) / 60⌋ : ℚ) * 60 ∧
      (processCaravanGoldFull delta rolls s).2.1 = true ∧
      (processCaravanGoldFull delta rolls s).1.goldAmount =
        s.goldAmount + (caravanTotalGold s.nomadTokens rolls
          (c * Int.toNat ⌊(s.caravanGoldTimer + delta) / 60⌋) : ℚ) ∧
      ¬caravanTotalGold s.nomadTokens rolls
          (c * Int.toNat ⌊(s.caravanGoldTimer + delta) / 60⌋) ≤ 0 ∧
      (∀ i, 14 ≤ caravanRollGold s.nomadTokens (rolls i)) ∧
      (∀ r, 0 ≤ r → r < 1 → 14 ≤ caravanBaseGold r ∧ caravanBaseGold r ≤ 21) ∧
      (∀ k : ℤ, 14 ≤ k → k ≤ 21 → ∃ r, 0 ≤ r ∧ r < 1 ∧ caravanBaseGold r = k) := by
  have hcy : (1 : ℤ) ≤ ⌊(s.caravanGoldTimer + delta) / 60⌋ :=
    one_le_floor_of_le _ _ (by norm_num) ht
  have hn : jsLoopCount (s.caravanCount * (⌊(s.caravanGoldTimer + delta) / 60⌋ : ℚ)) =
      c * Int.toNat ⌊(s.caravanGoldTimer + delta) / 60⌋ := by
    unfold jsLoopCount
    rw [hc]
    have h2 : ((Int.toNat ⌊(s.caravanGoldTimer + delta) / 60⌋ : ℕ) : ℚ) =
        (⌊(s.caravanGoldTimer + delta) / 60⌋ : ℚ) := by
      exact_mod_cast Int.toNat_of_nonneg
        (by omega : (0 : ℤ) ≤ ⌊(s.caravanGoldTimer + delta) / 60⌋)
    have hcast : (c : ℚ) * (⌊(s.caravanGoldTimer + delta) / 60⌋ : ℚ) =
        ((c * Int.toNat ⌊(s.caravanGoldTimer + delta) / 60⌋ : ℕ) : ℚ) := by
      rw [Nat.cast_mul, h2]
    rw [hcast, Int.ceil_natCast, Int.toNat_natCast]
  have hnpos : 0 < c * Int.toNat ⌊(s.caravanGoldTimer + delta) / 60⌋ :=
    Nat.mul_pos hcpos (by omega)
  have htot : 0 < caravanTotalGold s.nomadTokens rolls
      (c * Int.toNat ⌊(s.caravanGoldTimer + delta) / 60⌋) := by
    have h14 := caravanTotalGold_ge s.nomadTokens rolls
      (c * Int.toNat ⌊(s.caravanGoldTimer + delta) / 60⌋) htok hr
    have hpos : (0 : ℤ) < (c * Int.toNat ⌊(s.caravanGoldTimer + delta) / 60⌋ : ℕ) := by
      exact_mod_cast hnpos
    linarith
  have hQtot : (0 : ℚ) < (caravanTotalGold s.nomadTokens rolls
      (c * Int.toNat ⌊(s.caravanGoldTimer + delta) / 60⌋) : ℚ) := by
    exact_mod_cast htot
  have hne : ¬(s.caravanCount = 0 ∨ s.caravanGoldTimer + delta < 60) := by
    push_neg
    constructor
    · rw [hc]
      exact_mod_cast hcpos.ne'
    · exact ht
  simp only [processCaravanGoldFull]
  rw [if_neg hne,
    if_neg (by omega : ¬⌊(s.caravanGoldTimer + delta) / 60⌋ = 0), hn,
    if_neg (not_le.mpr htot)]
  refine ⟨rfl, ?_, rfl, ?_, not_le.mpr htot,
    fun i => caravanRollGold_ge _ _ htok (hr i).1 (hr i).2,
    fun r h0 h1 => caravanBaseGold_mem r h0 h1,
    fun k h1 h2 => caravanBaseGold_surj k h1 h2⟩
  · rw [gainGold_caravanGoldTimer]
  · rw [gainGold_goldAmount _ _ hQtot]

/-- Claim C4, witness. One caravan completing one payout cycle with an all-zero
roll stream: the payout reports changed and performs exactly one roll. -/
theorem caravan_gold_witness :
    (∀ i, 0 ≤ zeroRoll i ∧ zeroRoll i < 1) ∧
      (processCaravanGoldFull 1 zeroRoll caravanScenario).2.1 = true ∧
      (processCaravanGoldFull 1 zeroRoll caravanScenario).2.2 =
        1 * Int.toNat ⌊(caravanScenario.caravanGoldTimer + 1) / 60⌋ := by
  have h := caravan_gold_spec 1 zeroRoll caravanScenario 1
    (by show (1 : ℚ) = ((1 : ℕ) : ℚ); norm_num)
    (by norm_num)
    (le_refl 0)
    (fun i => by unfold zeroRoll; norm_num)
    (by show (60 : ℚ) ≤ 59 + 1; norm_num)
  exact ⟨fun i => by unfold zeroRoll; norm_num, h.2.2.1, h.1⟩

/-- Claim C9, counterexample. Not every processed bandit cycle emits a status
message: with exactly one whole cycle pending and rolls of `1/2` (a peaceful
cycle, since the attack roll `1/2` exceeds the attack chance `0.075`), the
raid resolver processes one cycle but emits zero messages, not one. -/
theorem bandit_raid_cex :
    Int.toNat ⌊(banditScenario.banditTimer + 1) / 60⌋ = 1 ∧
      (processBanditRaidFull 1 halfRoll banditScenario).msgs = 0 := by
  constructor
  · norm_num [banditScenario, initState]
  · norm_num [processBanditRaidFull, banditScenario, initState, banditCycles,
      banditCycle, halfRoll]

/-- Claim C9, amended. For every bandit-raid resolution that processes `n ≥ 1`
whole 60-second cycles, exactly one status message is emitted per *attacked*
cycle (a cycle whose attack roll does not exceed the rolled attack chance)
and none for peaceful cycles, so the message count equals the number of
attacked cycles; and the resolver reports changed if and only if at least
one cycle lost a caravan or lost gold (the caravan count or the gold stash
strictly decreased over that cycle). -/
theorem bandit_raid_messages (delta : ℚ) (rolls : ℕ → ℚ) (s : GameState)
    (ht : 60 ≤ s.banditTimer + delta) :
    (processBanditRaidFull delta rolls s).msgs =
        ((Finset.range (Int.toNat ⌊(s.banditTimer + delta) / 60⌋)).filter
          (fun i => banditAttackedAt rolls 0 (banditStart delta s) i = true)).card ∧
      ((processBanditRaidFull delta rolls s).changed = true ↔
        ∃ i, i < Int.toNat ⌊(s.banditTimer + delta) / 60⌋ ∧
          banditLossAt rolls 0 (banditStart delta s) i) := by
  simp only [processBanditRaidFull]
  rw [if_neg (not_lt.mpr ht)]
  exact ⟨banditCycles_msgs_eq rolls _ 0 (banditStart delta s),
    banditCycles_changed_iff rolls _ 0 (banditStart delta s)⟩

/-- Claim C9, witness. One whole cycle pending at a concrete state: the message
count equals the number of attacked cycles among the processed range. -/
theorem bandit_raid_messages_witness :
    (60 ≤ banditScenario.banditTimer + 1) ∧
      (processBanditRaidFull 1 halfRoll banditScenario).msgs =
        ((Finset.range (Int.toNat ⌊(banditScenario.banditTimer + 1) / 60⌋)).filter
          (fun i =>
            banditAttackedAt halfRoll 0 (banditStart 1 banditScenario) i = true)).card :=
  ⟨by show (60 : ℚ) ≤ 59 + 1; norm_num,
    (bandit_raid_messages 1 halfRoll banditScenario
      (by show (60 : ℚ) ≤ 59 + 1; norm_num)).1⟩

/-- Claim C6. `nomadTokens` never decreases: across any sequence of scheduler
ticks, purchases, caravan formations, camel spawns and prestige migrations,
the token count after running the sequence is at least the token count
before (each migration adds at least one token; no other operation writes the
field). -/
theorem nomadTokens_monotone (ops : List Op) (s : GameState) :
    s.nomadTokens ≤ (runOps ops s).nomadTokens := by
  induction ops generalizing s with
  | nil => exact le_refl _
  | cons op rest ih =>
    exact le_trans (applyOp_nomadTokens_le op s) (ih (applyOp op s))

end CamelGame
